import Mathlib

/-
Verification of the answer-evaluation pipeline of the excel-interviewer
repository (interviews/services/sonar_reasoning.py, interviews/services/runner.py,
interviews/utils.py, interviews/views_candidate.py) against its specification.

Python values flowing through the pipeline are JSON-shaped; we embed them as
the inductive type `JVal`.  JSON numbers are modelled as rationals (`Rat`).
`json.loads` is modelled by `jsonLoads` (a recursive-descent reading of the
JSON grammar; unicode escapes and the exact rejection of leading zeros are
simplified, which no claim depends on), and `json.dumps` by `jsonDumps`
(rendering of rationals simplified; only the shape of values matters to the
claims).
-/

inductive JVal where
  | null : JVal
  | bool (b : Bool) : JVal
  | num (q : Rat) : JVal
  | str (s : String) : JVal
  | arr (xs : List JVal) : JVal
  | obj (kvs : List (String × JVal)) : JVal
deriving Repr

/-- Python truthiness (`bool(x)`) restricted to JSON-shaped values. -/
def isTruthy : JVal → Bool
  | JVal.null => false
  | JVal.bool b => b
  | JVal.num q => decide (q ≠ 0)
  | JVal.str s => !s.data.isEmpty
  | JVal.arr xs => !xs.isEmpty
  | JVal.obj kvs => !kvs.isEmpty

/-- Python `x or y` on JSON-shaped values. -/
def pyOr (x y : JVal) : JVal := if isTruthy x then x else y

/-- Python `d.get(k, default)`: keys in our association lists are unique
(parsing inserts with replacement), so first-match lookup matches dict lookup. -/
def pyGetD (kvs : List (String × JVal)) (k : String) (d : JVal) : JVal :=
  match kvs with
  | [] => d
  | (k0, v0) :: rest => if k0 = k then v0 else pyGetD rest k d

def lookupField : List (String × JVal) → String → Option JVal
  | [], _ => none
  | (k0, v0) :: rest, k => if k0 = k then some v0 else lookupField rest k

/-- Lookup of a field of an object value; `none` when absent or not an object. -/
def JVal.getField : JVal → String → Option JVal
  | JVal.obj kvs, k => lookupField kvs k
  | _, _ => none

-- ---------------------------------------------------------------------------
-- Model of Python's json.loads (the parts the pipeline exercises)
-- ---------------------------------------------------------------------------

def isWsChar (c : Char) : Bool := c = ' ' || c = '\t' || c = '\n' || c = '\r'

def skipWs : List Char → List Char
  | [] => []
  | c :: rest => if isWsChar c then skipWs rest else c :: rest

/-- Body of a JSON string literal after the opening quote; simplified escape
handling (`\n`, `\t`, `\r`, and otherwise the escaped character itself). -/
def parseStringBody : List Char → List Char → Option (String × List Char)
  | [], _ => none
  | c :: rest, acc =>
    if c = '"' then some (String.mk acc.reverse, rest)
    else if c = '\\' then
      match rest with
      | [] => none
      | e :: rest2 =>
        let ec : Char := if e = 'n' then '\n' else if e = 't' then '\t'
          else if e = 'r' then '\r' else e
        parseStringBody rest2 (ec :: acc)
    else parseStringBody rest (c :: acc)

def takeDigits : List Char → (List Char × List Char)
  | [] => ([], [])
  | c :: rest =>
    if c.isDigit then
      let p := takeDigits rest
      (c :: p.1, p.2)
    else ([], c :: rest)

def digitsVal (ds : List Char) : Nat :=
  ds.foldl (fun a c => a * 10 + (c.toNat - 48)) 0

/-- Fractional digit run after an optional decimal point. -/
def parseFracDigits (cs : List Char) : Option (List Char × List Char) :=
  match cs with
  | c :: rest =>
    if c = '.' then
      let p := takeDigits rest
      if p.1.isEmpty then none else some (p.1, p.2)
    else some ([], cs)
  | [] => some ([], [])

def parseExp (cs : List Char) : Option (Int × List Char) :=
  match cs with
  | c :: rest =>
    if c = 'e' || c = 'E' then
      let sp : Int × List Char :=
        match rest with
        | d :: r2 => if d = '+' then (1, r2) else if d = '-' then (-1, r2) else (1, rest)
        | [] => (1, [])
      let p := takeDigits sp.2
      if p.1.isEmpty then none
      else some (sp.1 * (digitsVal p.1 : Int), p.2)
    else some (0, cs)
  | [] => some (0, [])

/-- The rational value of a decimal literal `(-)mant` with `fracLen` digits
after the point and exponent `e`, built with `mkRat` over integer primitives. -/
def decToRat (neg : Bool) (mant : Nat) (fracLen : Nat) (e : Int) : Rat :=
  let num : Int := if neg then -(mant : Int) else (mant : Int)
  mkRat (num * (((10 : Nat) ^ e.toNat : Nat) : Int))
    (((10 : Nat) ^ fracLen) * ((10 : Nat) ^ (-e).toNat))

def parseNumber (cs : List Char) : Option (Rat × List Char) :=
  let np : Bool × List Char :=
    match cs with
    | c :: rest => if c = '-' then (true, rest) else (false, cs)
    | [] => (false, [])
  let dp := takeDigits np.2
  if dp.1.isEmpty then none
  else
    match parseFracDigits dp.2 with
    | none => none
    | some (fds, cs3) =>
      match parseExp cs3 with
      | none => none
      | some (e, cs4) =>
        some (decToRat np.1 (digitsVal (dp.1 ++ fds)) fds.length e, cs4)

/-- Consume an expected literal tail such as `rue` after `t`. -/
def stripLit : List Char → List Char → Option (List Char)
  | [], cs => some cs
  | l :: ls, c :: cs => if c = l then stripLit ls cs else none
  | _ :: _, [] => none

/-- Insert with replacement: Python dicts keep one binding per key, the later
value winning, at the position of the first occurrence. -/
def insertKV : List (String × JVal) → String → JVal → List (String × JVal)
  | [], k, v => [(k, v)]
  | (k0, v0) :: rest, k, v =>
    if k0 = k then (k0, v) :: rest else (k0, v0) :: insertKV rest k v

mutual

def parseVal : Nat → List Char → Option (JVal × List Char)
  | 0, _ => none
  | Nat.succ fuel, cs =>
    match skipWs cs with
    | [] => none
    | c :: rest =>
      if c = '\x7b' then parseObjItems fuel (skipWs rest) []
      else if c = '[' then parseArrItems fuel (skipWs rest) []
      else if c = '"' then
        match parseStringBody rest [] with
        | some (s, r) => some (JVal.str s, r)
        | none => none
      else if c = 't' then
        match stripLit ("rue".data) rest with
        | some r => some (JVal.bool true, r)
        | none => none
      else if c = 'f' then
        match stripLit ("alse".data) rest with
        | some r => some (JVal.bool false, r)
        | none => none
      else if c = 'n' then
        match stripLit ("ull".data) rest with
        | some r => some (JVal.null, r)
        | none => none
      else
        match parseNumber (c :: rest) with
        | some (q, r) => some (JVal.num q, r)
        | none => none
  termination_by structural fuel => fuel

def parseArrItems : Nat → List Char → List JVal → Option (JVal × List Char)
  | 0, _, _ => none
  | Nat.succ fuel, cs, acc =>
    match cs with
    | ']' :: rest =>
      if acc.isEmpty then some (JVal.arr acc, rest) else none
    | _ =>
      match parseVal fuel cs with
      | none => none
      | some (v, r1) =>
        match skipWs r1 with
        | ',' :: r2 => parseArrItems fuel (skipWs r2) (acc ++ [v])
        | ']' :: r2 => some (JVal.arr (acc ++ [v]), r2)
        | _ => none
  termination_by structural fuel => fuel

def parseObjItems : Nat → List Char → List (String × JVal) → Option (JVal × List Char)
  | 0, _, _ => none
  | Nat.succ fuel, cs, acc =>
    match cs with
    | '\x7d' :: rest =>
      if acc.isEmpty then some (JVal.obj acc, rest) else none
    | '"' :: rest =>
      match parseStringBody rest [] with
      | none => none
      | some (k, r1) =>
        match skipWs r1 with
        | ':' :: r2 =>
          match parseVal fuel r2 with
          | none => none
          | some (v, r3) =>
            match skipWs r3 with
            | ',' :: r4 => parseObjItems fuel (skipWs r4) (insertKV acc k v)
            | '\x7d' :: r4 => some (JVal.obj (insertKV acc k v), r4)
            | _ => none
        | _ => none
    | _ => none
  termination_by structural fuel => fuel

end

/-- Model of Python `json.loads`: parse one JSON value and require only
trailing whitespace after it (extra data raises, i.e. yields `none`). -/
def jsonLoads (s : String) : Option JVal :=
  match parseVal (s.data.length + 2) s.data with
  | some (v, rest) => if (skipWs rest).isEmpty then some v else none
  | none => none

-- ---------------------------------------------------------------------------
-- Model of Python's json.dumps (shape-faithful; number rendering simplified,
-- which no claim inspects)
-- ---------------------------------------------------------------------------

def escapeChar (c : Char) : String :=
  if c = '"' then "\\\""
  else if c = '\\' then "\\\\"
  else if c = '\n' then "\\n"
  else if c = '\t' then "\\t"
  else if c = '\r' then "\\r"
  else String.mk [c]

def escapeStr (s : String) : String :=
  String.join (s.data.map escapeChar)

def ratDump (q : Rat) : String :=
  if q.den = 1 then toString q.num
  else toString q.num ++ "/" ++ toString q.den

mutual

def jsonDumps : JVal → String
  | JVal.null => "null"
  | JVal.bool b => if b then "true" else "false"
  | JVal.num q => ratDump q
  | JVal.str s => "\"" ++ escapeStr s ++ "\""
  | JVal.arr xs => "[" ++ String.intercalate ", " (dumpList xs) ++ "]"
  | JVal.obj kvs => "\x7b" ++ String.intercalate ", " (dumpPairs kvs) ++ "\x7d"

def dumpList : List JVal → List String
  | [] => []
  | v :: rest => jsonDumps v :: dumpList rest

def dumpPairs : List (String × JVal) → List String
  | [] => []
  | (k, v) :: rest => ("\"" ++ escapeStr k ++ "\": " ++ jsonDumps v) :: dumpPairs rest

end

-- ---------------------------------------------------------------------------
-- _safe_parse_json (sonar_reasoning.py lines 50-74)
-- ---------------------------------------------------------------------------

/-- Index of the last occurrence of an opening brace (`text.rfind` at line 58;
braces inside string literals count, exactly as in the source). -/
def rfindBrace : List Char → Option Nat
  | [] => none
  | c :: rest =>
    match rfindBrace rest with
    | some i => some (i + 1)
    | none => if c = '\x7b' then some 0 else none

/-- The balanced-brace scan of lines 62-73: raw character counting, stopping at
the first position where the depth returns to zero on a closing brace. -/
def braceBlock : List Char → Int → List Char → Option (List Char)
  | [], _, _ => none
  | c :: rest, depth, acc =>
    if c = '\x7b' then braceBlock rest (depth + 1) (c :: acc)
    else if c = '\x7d' then
      if depth - 1 = 0 then some (c :: acc).reverse
      else braceBlock rest (depth - 1) (c :: acc)
    else braceBlock rest depth (c :: acc)

/-- Embedding of `_safe_parse_json` on string input: direct parse first, then
the last-open-brace balanced block; a parse failure of the block returns `none`
(the Python loop breaks and falls through to `return None`). -/
def safeParseJson (text : String) : Option JVal :=
  if text.data.isEmpty then none
  else
    match jsonLoads text with
    | some v => some v
    | none =>
      match rfindBrace text.data with
      | none => none
      | some i =>
        match braceBlock (text.data.drop i) 0 [] with
        | some block => jsonLoads (String.mk block)
        | none => none

/-- Embedding of `_safe_parse_json` applied to an arbitrary Python value, as
`judge_answer` does at line 149: a falsy argument returns `None`; a truthy
non-string raises (json.loads raises TypeError, and the handler then calls
`.rfind` on the non-string, raising AttributeError out of the function). -/
def safeParseJsonPy (t : JVal) : Except String (Option JVal) :=
  if isTruthy t then
    match t with
    | JVal.str s => Except.ok (safeParseJson s)
    | _ => Except.error "AttributeError"
  else Except.ok none

-- ---------------------------------------------------------------------------
-- Transport model and judge_answer (sonar_reasoning.py lines 77-194)
-- ---------------------------------------------------------------------------

/-- A completed HTTP exchange: `status` models `getattr(resp, "status_code",
None)` and `body` models `resp.text` (with `resp.json()` = `jsonLoads body`). -/
structure HttpResponse where
  status : Option Int
  body : String

/-- Outcome of `requests.post`: either an exception (timeout, connection
error, ...) or a response object, of any HTTP status. -/
inductive TransportOutcome where
  | exn (msg : String) : TransportOutcome
  | ok (resp : HttpResponse) : TransportOutcome

/-- Python `x[0]`: a JSON object raises KeyError (its keys are strings, never
the integer 0), scalars raise TypeError. -/
def pyIndex0 : JVal → Except String JVal
  | JVal.arr [] => Except.error "IndexError"
  | JVal.arr (x :: _) => Except.ok x
  | JVal.str s =>
    match s.data with
    | [] => Except.error "IndexError"
    | c :: _ => Except.ok (JVal.str (String.mk [c]))
  | JVal.obj _ => Except.error "KeyError"
  | _ => Except.error "TypeError"

/-- Embedding of `_extract_candidate_text` (lines 28-47): on an unparsable body
return `resp.text`; on a parsed dict, drill into choices[0].message.content or
.text when present and truthy, else fall back to `json.dumps` of the data.
`choices[0]` on a non-indexable value and `.get` on a truthy non-dict message
raise, which the caller catches while computing the excerpt. -/
def extractCandidateText (resp : HttpResponse) : Except String JVal :=
  match jsonLoads resp.body with
  | none => Except.ok (JVal.str resp.body)
  | some data =>
    match data with
    | JVal.obj kvs =>
      let choices := pyOr (pyGetD kvs "choices" JVal.null) (JVal.arr [])
      if isTruthy choices then
        match pyIndex0 choices with
        | Except.error e => Except.error e
        | Except.ok c0 =>
          match c0 with
          | JVal.obj ckvs =>
            let message := pyOr (pyGetD ckvs "message" JVal.null) (JVal.obj [])
            match message with
            | JVal.obj mkvs =>
              let content := pyOr (pyGetD mkvs "content" JVal.null) (pyGetD mkvs "text" JVal.null)
              if isTruthy content then Except.ok content
              else Except.ok (JVal.str (jsonDumps data))
            | _ => Except.error "AttributeError"
          | _ => Except.ok (JVal.str (jsonDumps data))
      else Except.ok (JVal.str (jsonDumps data))
    | _ => Except.ok (JVal.str (jsonDumps data))

/-- Python `len(x)` on JSON-shaped values; scalars raise TypeError. -/
def pyLen : JVal → Except String Nat
  | JVal.str s => Except.ok s.data.length
  | JVal.arr xs => Except.ok xs.length
  | JVal.obj kvs => Except.ok kvs.length
  | _ => Except.error "TypeError"

/-- The excerpt expression of line 144: `len` raises on scalars; over 400
entries, slicing a dict raises and a list slice cannot be concatenated with a
string; only strings truncate successfully. -/
def computeExcerpt (ct : JVal) : Except String JVal :=
  match pyLen ct with
  | Except.error e => Except.error e
  | Except.ok n =>
    if 400 < n then
      match ct with
      | JVal.str s => Except.ok (JVal.str (String.mk (s.data.take 400) ++ "..."))
      | _ => Except.error "TypeError"
    else Except.ok ct

/-- The fallback excerpt of line 146: `(resp.text[:400] + "...") if resp.text else ""`. -/
def fallbackExcerpt (body : String) : JVal :=
  if body.data.isEmpty then JVal.str ""
  else JVal.str (String.mk (body.data.take 400) ++ "...")

/-- Model of Python `float(x)` on JSON-shaped values: numbers and bools
convert, numeric strings parse (the inf/nan word forms are not modelled; a
parse failure yields `none` and the caller falls back to 0 either way),
everything else raises, i.e. yields `none` for the caller's except branch. -/
def parseFloatStr (s : String) : Option Rat :=
  match parseNumber (skipWs s.data) with
  | some (q, rest) => if (skipWs rest).isEmpty then some q else none
  | none => none

def pyFloat : JVal → Option Rat
  | JVal.num q => some q
  | JVal.bool b => some (if b then 1 else 0)
  | JVal.str s => parseFloatStr s
  | _ => none

/-- `parsed.get(k1, parsed.get(k2, d))`: alias key consulted only when the
primary key is absent. -/
def getD2 (kvs : List (String × JVal)) (k1 k2 : String) (d : JVal) : JVal :=
  pyGetD kvs k1 (pyGetD kvs k2 d)

/-- Lines 177-182: a non-list is wrapped as the one-element list of its
`str()` rendering (rendering modelled by `jsonDumps`; only listness matters). -/
def ensureList : JVal → JVal
  | JVal.arr xs => JVal.arr xs
  | v => JVal.arr [JVal.str (jsonDumps v)]

def statusJVal : Option Int → JVal
  | none => JVal.null
  | some n => JVal.num (n : Rat)

/-- The degraded result for a missing credential (lines 92-99). -/
def noKeyResult : JVal :=
  JVal.obj [("score", JVal.num 0),
            ("verdict", JVal.str "Sonar unavailable (no API key)"),
            ("mistakes", JVal.arr []),
            ("improvements", JVal.arr [JVal.str "Sonar API key not configured on server."]),
            ("citations", JVal.arr []),
            ("debug", JVal.obj [("reason", JVal.str "no_api_key")])]

/-- The degraded result for a transport exception (lines 131-138). -/
def networkErrorResult (e : String) : JVal :=
  JVal.obj [("score", JVal.num 0),
            ("verdict", JVal.str "Sonar unavailable (network error)"),
            ("mistakes", JVal.arr []),
            ("improvements", JVal.arr [JVal.str ("network_error: " ++ e)]),
            ("citations", JVal.arr []),
            ("debug", JVal.obj [("exception", JVal.str e)])]

/-- The degraded result for an unparsable response (lines 153-160). -/
def unparsableResult (status : Option Int) (raw : JVal) : JVal :=
  JVal.obj [("score", JVal.num 0),
            ("verdict", JVal.str "Sonar unavailable (unparsable response)"),
            ("mistakes", JVal.arr []),
            ("improvements", JVal.arr [JVal.str "Sonar returned an unparsable response."]),
            ("citations", JVal.arr []),
            ("debug", JVal.obj [("http_status", statusJVal status), ("raw_excerpt", raw)])]

/-- Field normalization of lines 162-194: alias keys, `or` defaults, float
coercion with fallback 0 and clamping to [0, 100], list coercion. -/
def normalizeParsed (kvs : List (String × JVal)) (status : Option Int) (raw : JVal) : JVal :=
  let score0 := getD2 kvs "score" "grade" (JVal.num 0)
  let verdict := pyOr (getD2 kvs "verdict" "summary" (JVal.str "")) (JVal.str "")
  let mistakes := pyOr (getD2 kvs "mistakes" "errors" (JVal.arr [])) (JVal.arr [])
  let improvements := pyOr (getD2 kvs "improvements" "advice" (JVal.arr [])) (JVal.arr [])
  let citations := pyOr (pyGetD kvs "citations" (JVal.arr [])) (JVal.arr [])
  let score : Rat := max 0 (min 100 ((pyFloat score0).getD 0))
  JVal.obj [("score", JVal.num score),
            ("verdict", verdict),
            ("mistakes", ensureList mistakes),
            ("improvements", ensureList improvements),
            ("citations", ensureList citations),
            ("debug", JVal.obj [("http_status", statusJVal status), ("raw_excerpt", raw)])]

/-- Response handling of lines 140-194.  When `_extract_candidate_text` raises,
the excerpt fallback catches it but `candidate_text` is then unbound, so line
149 raises NameError.  A truthy non-dict parse raises AttributeError at the
`.get` calls of line 163. -/
def judgeResponsePhase (resp : HttpResponse) : Except String JVal :=
  match extractCandidateText resp with
  | Except.error _ => Except.error "NameError"
  | Except.ok ct =>
    let raw :=
      match computeExcerpt ct with
      | Except.ok ex => ex
      | Except.error _ => fallbackExcerpt resp.body
    match safeParseJsonPy ct with
    | Except.error e => Except.error e
    | Except.ok parsedOpt =>
      match parsedOpt with
      | none => Except.ok (unparsableResult resp.status raw)
      | some parsed =>
        if isTruthy parsed then
          match parsed with
          | JVal.obj kvs => Except.ok (normalizeParsed kvs resp.status raw)
          | _ => Except.error "AttributeError"
        else Except.ok (unparsableResult resp.status raw)

/-- Embedding of `judge_answer` (lines 77-194).  The module-global credential
is a parameter; the three payload arguments only enter the outbound request
body, which the abstract transport consumes, so the result depends on them only
through `transport`.  `Except.error` marks an uncaught Python exception. -/
def judgeAnswer (apiKey : Option String) (transport : TransportOutcome)
    (question submission runnerResult : JVal) : Except String JVal :=
  match apiKey with
  | none => Except.ok noKeyResult
  | some _ =>
    match transport with
    | TransportOutcome.exn e => Except.ok (networkErrorResult e)
    | TransportOutcome.ok resp => judgeResponsePhase resp

-- ---------------------------------------------------------------------------
-- ping (sonar_reasoning.py lines 198-249)
-- ---------------------------------------------------------------------------

/-- Embedding of `ping`.  Line 205 runs `if not settings.DEBUG: info.pop(...)`
before `info` is ever assigned, so every non-debug call raises NameError at
once.  In debug mode: a missing credential returns `(False, {error:
no_api_key})` without consulting the transport; a transport exception is caught
and reported; a response with no status attribute makes `200 <= status` raise
TypeError, caught by the same handler.  `elapsedMs` models the wall-clock
measurement.  `Except.error` marks an uncaught Python exception. -/
def ping (debugMode : Bool) (apiKey : Option String) (timeout : Nat)
    (transport : TransportOutcome) (elapsedMs : Int) : Except String (Bool × JVal) :=
  if !debugMode then Except.error "NameError"
  else
    match apiKey with
    | none => Except.ok (false, JVal.obj [("error", JVal.str "no_api_key")])
    | some _ =>
      match transport with
      | TransportOutcome.exn e =>
        Except.ok (false, JVal.obj [("exception", JVal.str e),
                                    ("time_ms", JVal.num (elapsedMs : Rat))])
      | TransportOutcome.ok resp =>
        match resp.status with
        | none =>
          Except.ok (false, JVal.obj [("exception", JVal.str "TypeError"),
                                      ("time_ms", JVal.num (elapsedMs : Rat))])
        | some st =>
          let text := resp.body
          let excerpt :=
            if 400 < text.data.length then String.mk (text.data.take 400) ++ "..."
            else text
          let parsed := jsonLoads resp.body
          let ok := (decide (200 ≤ st) && decide (st < 300)) && parsed.isSome
          let parsedTruthy :=
            match parsed with
            | some v => isTruthy v
            | none => false
          Except.ok (ok, JVal.obj [("http_status", JVal.num (st : Rat)),
                                   ("time_ms", JVal.num (elapsedMs : Rat)),
                                   ("parsed", JVal.bool parsedTruthy),
                                   ("raw_excerpt", JVal.str excerpt)])

-- ---------------------------------------------------------------------------
-- run_checks (runner.py lines 5-34)
-- ---------------------------------------------------------------------------

/-- The RunnerResult dict of lines 30-34. -/
def mkRunnerResult (passed : Bool) (checks : List JVal) : JVal :=
  JVal.obj [("passed", JVal.bool passed),
            ("checks", JVal.arr checks),
            ("score_runner", JVal.num (if passed then 100 else 0))]

/-- Embedding of `run_checks`.  `pandas.read_csv` is the only operation in the
guarded block that can raise, so it is a parameter: `Except.ok rows` models a
parsed table with `rows` data rows, `Except.error e` models a raised
exception with message `e`, which line 27 captures as a failed check. -/
def runChecks (readCsv : String → Except String Nat) (answer : JVal) : JVal :=
  if isTruthy answer then
    match answer with
    | JVal.str s =>
      if s.data.contains '\n' then
        match readCsv s with
        | Except.ok rows =>
          mkRunnerResult (decide (0 < rows))
            [JVal.obj [("name", JVal.str "rows_present"),
                       ("passed", JVal.bool (decide (0 < rows))),
                       ("rows", JVal.num (rows : Rat))]]
        | Except.error e =>
          mkRunnerResult false
            [JVal.obj [("name", JVal.str "exception"),
                       ("passed", JVal.bool false),
                       ("error", JVal.str e)]]
      else
        mkRunnerResult true
          [JVal.obj [("name", JVal.str "non_empty_submission"), ("passed", JVal.bool true)]]
    | _ =>
      mkRunnerResult true
        [JVal.obj [("name", JVal.str "non_empty_submission"), ("passed", JVal.bool true)]]
  else mkRunnerResult false []

-- ---------------------------------------------------------------------------
-- submit_answer evaluation core (views_candidate.py lines 111-151)
-- ---------------------------------------------------------------------------

/-- Removal of the debug key (`response["judge"].pop("debug", None)`, line
149); under unique keys filtering equals popping. -/
def stripDebug : JVal → JVal
  | JVal.obj kvs => JVal.obj (kvs.filter (fun kv => kv.1 ≠ "debug"))
  | v => v

/-- The grading response dict of lines 137-145; its `runner` entry is the
literal `None` of line 142. -/
def buildSubmitResponse (safeJudge : JVal) (finalScore : Rat) (debugMode : Bool)
    (submissionId gradeId : String) (fileUrl : JVal) : JVal :=
  let judgeOut :=
    if debugMode then safeJudge
    else
      match safeJudge with
      | JVal.obj kvs => stripDebug (JVal.obj kvs)
      | v => v
  JVal.obj [("ok", JVal.bool true),
            ("submission_id", JVal.str submissionId),
            ("grade_id", JVal.str gradeId),
            ("score", JVal.num finalScore),
            ("runner", JVal.null),
            ("judge", judgeOut),
            ("file_url", fileUrl)]

/-- Embedding of the evaluation core of `submit_answer` (lines 111-151): the
judge is called with `None` as the runner result (line 113) and its own
exceptions are caught into a fallback dict (lines 114-121); `make_json_safe`
is the identity on the judge dicts, whose entries are already JSON values;
`final_score = float(safe_judge.get("score", 0) or 0)` (line 127) and the
Grade persists `(safe_judge, final_score)`.  Returns the response dict paired
with the persisted grade score. -/
def submitAnswerGrade (apiKey : Option String) (transport : TransportOutcome)
    (questionPayload submissionPayload : JVal) (debugMode : Bool)
    (submissionId gradeId : String) (fileUrl : JVal) : Except String (JVal × Rat) :=
  let safeJudge :=
    match judgeAnswer apiKey transport questionPayload submissionPayload JVal.null with
    | Except.ok v => v
    | Except.error e =>
      JVal.obj [("score", JVal.num 0),
                ("verdict", JVal.str "error"),
                ("mistakes", JVal.arr []),
                ("improvements", JVal.arr [JVal.str ("judge_error: " ++ e)]),
                ("citations", JVal.arr [])]
  let scoreArg :=
    match safeJudge with
    | JVal.obj kvs => pyOr (pyGetD kvs "score" (JVal.num 0)) (JVal.num 0)
    | _ => pyOr JVal.null (JVal.num 0)
  match pyFloat scoreArg with
  | none => Except.error "ValueError"
  | some finalScore =>
    Except.ok (buildSubmitResponse safeJudge finalScore debugMode submissionId gradeId fileUrl,
               finalScore)

-- ---------------------------------------------------------------------------
-- make_json_safe (utils.py lines 3-16)
-- ---------------------------------------------------------------------------

/-- Python values as seen by `make_json_safe`: UUIDs and dates carry their
string rendering, dict keys are arbitrary values (left untouched by the
function), and `atom` covers every other object, returned unchanged. -/
inductive PyVal where
  | puuid (s : String) : PyVal
  | pdate (s : String) : PyVal
  | pstr (s : String) : PyVal
  | pint (n : Int) : PyVal
  | pbool (b : Bool) : PyVal
  | pnone : PyVal
  | pdict (kvs : List (PyVal × PyVal)) : PyVal
  | plist (xs : List PyVal) : PyVal
  | ptuple (xs : List PyVal) : PyVal
  | atom (tag : String) : PyVal
deriving Repr

mutual

/-- Embedding of `make_json_safe`: UUIDs and dates become strings, dict values
are converted recursively (keys untouched), lists and tuples both become lists
of converted elements, and anything else is returned as is. -/
def makeJsonSafe : PyVal → PyVal
  | PyVal.puuid s => PyVal.pstr s
  | PyVal.pdate s => PyVal.pstr s
  | PyVal.pdict kvs => PyVal.pdict (mjsPairs kvs)
  | PyVal.plist xs => PyVal.plist (mjsList xs)
  | PyVal.ptuple xs => PyVal.plist (mjsList xs)
  | PyVal.pstr s => PyVal.pstr s
  | PyVal.pint n => PyVal.pint n
  | PyVal.pbool b => PyVal.pbool b
  | PyVal.pnone => PyVal.pnone
  | PyVal.atom t => PyVal.atom t

def mjsPairs : List (PyVal × PyVal) → List (PyVal × PyVal)
  | [] => []
  | (k, v) :: rest => (k, makeJsonSafe v) :: mjsPairs rest

def mjsList : List PyVal → List PyVal
  | [] => []
  | x :: rest => makeJsonSafe x :: mjsList rest

end

-- ---------------------------------------------------------------------------
-- Result-shape predicates and invariant lemmas
-- ---------------------------------------------------------------------------

def isArrB : Option JVal → Bool
  | some (JVal.arr _) => true
  | _ => false

def scoreOkB : Option JVal → Bool
  | some (JVal.num q) => decide (0 ≤ q) && decide (q ≤ 100)
  | _ => false

/-- The JudgeResult shape invariant of the spec: numeric score within [0, 100]
and list-valued mistakes, improvements and citations. -/
def judgeInvariant (v : JVal) : Bool :=
  scoreOkB (v.getField "score") &&
    (isArrB (v.getField "mistakes") &&
      (isArrB (v.getField "improvements") && isArrB (v.getField "citations")))

theorem jinv_noKey : judgeInvariant noKeyResult = true := rfl

theorem jinv_network (e : String) : judgeInvariant (networkErrorResult e) = true := rfl

theorem jinv_unparsable (st : Option Int) (raw : JVal) :
    judgeInvariant (unparsableResult st raw) = true := rfl

theorem ensureList_isArr (v : JVal) : isArrB (some (ensureList v)) = true := by
  cases v <;> rfl

theorem scoreOk_clamp (x : Rat) :
    scoreOkB (some (JVal.num (max 0 (min 100 x)))) = true := by
  have h0 : (0 : Rat) ≤ max 0 (min 100 x) := le_max_left 0 _
  have h1 : max 0 (min 100 x) ≤ 100 := max_le (by norm_num) (min_le_left 100 x)
  simp [scoreOkB, h0, h1]

theorem jinv_normalize (kvs : List (String × JVal)) (st : Option Int) (raw : JVal) :
    judgeInvariant (normalizeParsed kvs st raw) = true := by
  show (scoreOkB (some (JVal.num (max 0 (min 100
        ((pyFloat (getD2 kvs "score" "grade" (JVal.num 0))).getD 0))))) &&
      (isArrB (some (ensureList (pyOr (getD2 kvs "mistakes" "errors" (JVal.arr [])) (JVal.arr [])))) &&
        (isArrB (some (ensureList (pyOr (getD2 kvs "improvements" "advice" (JVal.arr [])) (JVal.arr [])))) &&
          isArrB (some (ensureList (pyOr (pyGetD kvs "citations" (JVal.arr [])) (JVal.arr []))))))) = true
  rw [scoreOk_clamp, ensureList_isArr, ensureList_isArr, ensureList_isArr]
  rfl

/-- C2: every value returned by judge_answer has a numeric score within
[0, 100] and list-valued mistakes, improvements and citations, for every
credential state, transport outcome and endpoint content. -/
theorem judge_answer_result_invariants (apiKey : Option String)
    (transport : TransportOutcome) (question submission runnerResult v : JVal)
    (h : judgeAnswer apiKey transport question submission runnerResult = Except.ok v) :
    judgeInvariant v = true := by
  cases apiKey with
  | none =>
    simp only [judgeAnswer] at h
    injection h with h
    subst h
    exact jinv_noKey
  | some k =>
    cases transport with
    | exn e =>
      simp only [judgeAnswer] at h
      injection h with h
      subst h
      exact jinv_network e
    | ok resp =>
      simp only [judgeAnswer, judgeResponsePhase] at h
      repeat' split at h
      all_goals
        first
          | (injection h with h; subst h;
             first
               | exact jinv_unparsable _ _
               | exact jinv_normalize _ _ _)
          | exact Except.noConfusion h

theorem judge_answer_result_invariants_witness : judgeInvariant noKeyResult = true :=
  judge_answer_result_invariants none (TransportOutcome.exn "down")
    JVal.null JVal.null JVal.null noKeyResult rfl

-- ---------------------------------------------------------------------------
-- C1: judge_answer can raise (code bug)
-- ---------------------------------------------------------------------------

/-- C1: refuted as stated — `judge_answer` is not total.  When the endpoint
responds 200 with content `[1, 2]`, `_safe_parse_json` returns the parsed list,
which is truthy but has no `.get`, so line 163 raises AttributeError out of
`judge_answer` instead of returning a JudgeResult-shaped value. -/
theorem judge_answer_raises_attribute_error :
    judgeAnswer (some "key")
      (TransportOutcome.ok
        ⟨some 200, "\x7b\"choices\": [\x7b\"message\": \x7b\"content\": \"[1, 2]\"\x7d\x7d]\x7d"⟩)
      JVal.null JVal.null JVal.null = Except.error "AttributeError" := rfl

-- ---------------------------------------------------------------------------
-- C3: the flow never runs the deterministic runner
-- ---------------------------------------------------------------------------

/-- C3 counterexample: at a concrete submission the grading response's
`runner` field is `None`, while `run_checks` on the same answer would produce a
non-trivial RunnerResult — the response does not carry the runner's result. -/
theorem submit_answer_runner_not_forwarded_cex :
    (submitAnswerGrade none (TransportOutcome.exn "down") JVal.null
        (JVal.obj [("answer", JVal.str "hi")]) true "s" "g" JVal.null).map
      (fun p => JVal.getField p.1 "runner") = Except.ok (some JVal.null)
    ∧ runChecks (fun _ => Except.error "no csv") (JVal.str "hi")
      = mkRunnerResult true
          [JVal.obj [("name", JVal.str "non_empty_submission"), ("passed", JVal.bool true)]]
    ∧ some JVal.null
      ≠ some (mkRunnerResult true
          [JVal.obj [("name", JVal.str "non_empty_submission"), ("passed", JVal.bool true)]]) := by
  refine ⟨rfl, rfl, ?_⟩
  intro hcontra
  injection hcontra with hcontra
  exact JVal.noConfusion hcontra

/-- C3 amended: `submit_answer` does not invoke the DeterministicRunner; the
judge is called with `None` as the runner result and every grading response it
produces has `runner = None`. -/
theorem submit_answer_runner_field_null (apiKey : Option String)
    (transport : TransportOutcome) (questionPayload submissionPayload : JVal)
    (debugMode : Bool) (submissionId gradeId : String) (fileUrl : JVal)
    (resp : JVal) (sc : Rat)
    (h : submitAnswerGrade apiKey transport questionPayload submissionPayload debugMode
          submissionId gradeId fileUrl = Except.ok (resp, sc)) :
    JVal.getField resp "runner" = some JVal.null := by
  simp only [submitAnswerGrade] at h
  split at h
  · exact Except.noConfusion h
  · injection h with h
    have hresp : resp = buildSubmitResponse _ _ debugMode submissionId gradeId fileUrl :=
      (congrArg Prod.fst h.symm)
    rw [hresp]
    rfl

theorem submit_answer_runner_field_null_witness :
    JVal.getField (buildSubmitResponse noKeyResult 0 true "s" "g" JVal.null) "runner"
      = some JVal.null :=
  submit_answer_runner_field_null none (TransportOutcome.exn "x") JVal.null JVal.null true
    "s" "g" JVal.null (buildSubmitResponse noKeyResult 0 true "s" "g" JVal.null) 0 rfl

-- ---------------------------------------------------------------------------
-- C4: non-2xx statuses are not network errors
-- ---------------------------------------------------------------------------

/-- C4 counterexample: a 500 response with a non-JSON body yields the
unparsable-response verdict, not the network-error verdict the claim
requires for non-2xx statuses. -/
theorem judge_answer_non2xx_not_network_error_cex :
    judgeAnswer (some "key") (TransportOutcome.ok ⟨some 500, "oops"⟩)
      JVal.null JVal.null JVal.null
      = Except.ok (unparsableResult (some 500) (JVal.str "oops"))
    ∧ JVal.getField (unparsableResult (some 500) (JVal.str "oops")) "verdict"
      = some (JVal.str "Sonar unavailable (unparsable response)")
    ∧ JVal.str "Sonar unavailable (unparsable response)"
      ≠ JVal.str "Sonar unavailable (network error)" := by
  refine ⟨rfl, rfl, ?_⟩
  intro hcontra
  injection hcontra with hcontra
  exact absurd hcontra (by decide)

/-- C4 amended: `judge_answer` never branches on the HTTP status: only a
transport exception produces the network-error verdict, while a response of
any status (2xx or not) flows into content extraction — with a body carrying
no extractable JSON it yields the unparsable-response degraded result. -/
theorem judge_answer_network_verdict_only_on_exception (key e : String)
    (st : Option Int) (question submission runnerResult : JVal) :
    judgeAnswer (some key) (TransportOutcome.exn e) question submission runnerResult
      = Except.ok (networkErrorResult e)
    ∧ judgeAnswer (some key) (TransportOutcome.ok ⟨st, "oops"⟩)
        question submission runnerResult
      = Except.ok (unparsableResult st (JVal.str "oops")) :=
  ⟨rfl, rfl⟩

-- ---------------------------------------------------------------------------
-- C5: the extractor anchors at the last opening brace
-- ---------------------------------------------------------------------------

/-- C5 counterexample: on `'{"a": {"b": 1}} trailing'` the extractor does not
return the full outer object — anchoring at the last opening brace truncates
to the inner object. -/
theorem safe_parse_json_nested_outer_cex :
    safeParseJson "\x7b\"a\": \x7b\"b\": 1\x7d\x7d trailing"
      ≠ some (JVal.obj [("a", JVal.obj [("b", JVal.num 1)])]) := by
  intro hcontra
  injection hcontra with h1
  injection h1 with h2
  injection h2 with h3 h4
  injection h3 with h5 h6
  exact absurd h5 (by decide)

/-- C5 amended: on `'{"a": {"b": 1}} trailing'` the extractor returns the
inner object anchored at the last opening brace, `{"b": 1}`. -/
theorem safe_parse_json_nested_returns_inner :
    safeParseJson "\x7b\"a\": \x7b\"b\": 1\x7d\x7d trailing"
      = some (JVal.obj [("b", JVal.num 1)]) := rfl

-- ---------------------------------------------------------------------------
-- C6: the extractor can return a non-object (code bug)
-- ---------------------------------------------------------------------------

/-- C6: refuted as stated — on input `"5"` the direct-parse path of
`_safe_parse_json` returns the bare number 5, not an object or absence,
contradicting its own `Optional[Dict]` annotation (and feeding the C1 crash). -/
theorem safe_parse_json_non_object_return :
    safeParseJson "5" = some (JVal.num 5)
    ∧ ∀ kvs : List (String × JVal), JVal.num 5 ≠ JVal.obj kvs :=
  ⟨rfl, fun _ hcontra => JVal.noConfusion hcontra⟩

-- ---------------------------------------------------------------------------
-- C7: ping raises NameError outside debug mode (code bug)
-- ---------------------------------------------------------------------------

/-- C7: refuted as stated — line 205 reads `info` before any assignment, so in
a non-debug configuration `ping` raises NameError for every timeout even with
the credential absent; only in debug mode does it return the documented
`(False, [error: no_api_key])` without touching the transport. -/
theorem ping_production_name_error (timeout : Nat) (transport : TransportOutcome)
    (elapsedMs : Int) :
    ping false none timeout transport elapsedMs = Except.error "NameError"
    ∧ ping true none timeout transport elapsedMs
      = Except.ok (false, JVal.obj [("error", JVal.str "no_api_key")]) :=
  ⟨rfl, rfl⟩

-- ---------------------------------------------------------------------------
-- C8: missing credential short-circuits the judge
-- ---------------------------------------------------------------------------

/-- C8: with no credential, `judge_answer` returns the fixed degraded result
for every transport outcome (hence zero network calls) and every input; its
score is 0.0 and its verdict names the missing API key. -/
theorem judge_answer_no_key_degraded (transport : TransportOutcome)
    (question submission runnerResult : JVal) :
    judgeAnswer none transport question submission runnerResult = Except.ok noKeyResult
    ∧ JVal.getField noKeyResult "score" = some (JVal.num 0)
    ∧ JVal.getField noKeyResult "verdict" = some (JVal.str "Sonar unavailable (no API key)") :=
  ⟨rfl, rfl, rfl⟩

-- ---------------------------------------------------------------------------
-- C9: run_checks is total and captures faults as failed checks
-- ---------------------------------------------------------------------------

/-- C9: `run_checks` never raises (it is total for every row-count oracle,
including raising ones): an empty answer yields `passed = False` with
`score_runner = 0.0`, and an internal fault on a tabular answer is captured as
a failed `exception` check carrying the error detail, with `passed = False`
and `score_runner = 0`. -/
theorem run_checks_contract (readCsv : String → Except String Nat) (s e : String)
    (hnl : s.data.contains '\n' = true) (he : readCsv s = Except.error e) :
    runChecks readCsv (JVal.str "") = mkRunnerResult false []
    ∧ runChecks readCsv (JVal.str s)
      = mkRunnerResult false
          [JVal.obj [("name", JVal.str "exception"), ("passed", JVal.bool false),
                     ("error", JVal.str e)]]
    ∧ JVal.getField (mkRunnerResult false []) "passed" = some (JVal.bool false)
    ∧ JVal.getField (mkRunnerResult false []) "score_runner" = some (JVal.num 0) := by
  have hne : s.data.isEmpty = false := by
    cases hd : s.data with
    | nil => rw [hd] at hnl; simp [List.contains] at hnl
    | cons a l => rfl
  have h1 : isTruthy (JVal.str s) = true := by simp [isTruthy, hne]
  refine ⟨rfl, ?_, rfl, rfl⟩
  simp only [runChecks, h1, hnl, he, if_true]

theorem run_checks_contract_witness :
    runChecks (fun _ => Except.error "boom") (JVal.str "a\nb")
      = mkRunnerResult false
          [JVal.obj [("name", JVal.str "exception"), ("passed", JVal.bool false),
                     ("error", JVal.str "boom")]] :=
  (run_checks_contract (fun _ => Except.error "boom") "a\nb" "boom" rfl rfl).2.1

-- ---------------------------------------------------------------------------
-- C10: make_json_safe is idempotent
-- ---------------------------------------------------------------------------

mutual

theorem mjs_idem_val : (v : PyVal) → makeJsonSafe (makeJsonSafe v) = makeJsonSafe v
  | PyVal.puuid _ => rfl
  | PyVal.pdate _ => rfl
  | PyVal.pstr _ => rfl
  | PyVal.pint _ => rfl
  | PyVal.pbool _ => rfl
  | PyVal.pnone => rfl
  | PyVal.atom _ => rfl
  | PyVal.pdict kvs => by
      simp only [makeJsonSafe]
      rw [mjs_idem_pairs kvs]
  | PyVal.plist xs => by
      simp only [makeJsonSafe]
      rw [mjs_idem_list xs]
  | PyVal.ptuple xs => by
      simp only [makeJsonSafe]
      rw [mjs_idem_list xs]

theorem mjs_idem_pairs : (kvs : List (PyVal × PyVal)) → mjsPairs (mjsPairs kvs) = mjsPairs kvs
  | [] => rfl
  | (k, v) :: rest => by
      simp only [mjsPairs]
      rw [mjs_idem_val v, mjs_idem_pairs rest]

theorem mjs_idem_list : (xs : List PyVal) → mjsList (mjsList xs) = mjsList xs
  | [] => rfl
  | x :: rest => by
      simp only [mjsList]
      rw [mjs_idem_val x, mjs_idem_list rest]

end

/-- C10: `make_json_safe` is idempotent — one pass already reaches a fixed
point in which UUIDs and dates are strings, tuples are lists, and nesting is
preserved. -/
theorem make_json_safe_idempotent (v : PyVal) :
    makeJsonSafe (makeJsonSafe v) = makeJsonSafe v :=
  mjs_idem_val v
